import Mathlib

/-!
Verification of the videodb-python HTTP client layer
(src/videodb/_utils/_http_client.py and src/videodb/_upload.py).

The Python code is shallowly embedded: JSON values become the inductive
type `Json`, Python `None` is `Json.null`, a `dict.get` becomes a lookup
with a default, Python truthiness becomes `Json.truthy`, and raised
exceptions become the `Except` error side with error type `VErr`.
The poll endpoint of `HttpClient._get_output` is abstracted as a sequence
`polls : Nat → Json` giving the parsed body of the i-th GET against the
output url, and the backoff time ceiling (`max_time=500`) is abstracted
as a positive attempt budget `fuel`; the functions also return the number
of poll GETs actually issued, so that "no follow-up request" is a
statement about that count.
-/

/-- JSON values, the wire data of the API.  Python `None` is `null`;
objects keep their fields as an association list. -/
inductive Json where
  | null : Json
  | bool (b : Bool) : Json
  | num (n : Int) : Json
  | str (s : String) : Json
  | arr (elems : List Json) : Json
  | obj (fields : List (String × Json)) : Json
deriving Repr

/-- Field lookup in an object: `some v` iff the key is present (its value
may itself be `null`, which models a key bound to Python `None`).
Returns `none` on non-objects and absent keys. -/
def lookupFields : List (String × Json) → String → Option Json
  | [], _ => none
  | (k, v) :: rest, key => if k = key then some v else lookupFields rest key

/-- `Json.lookup j k`: the field `k` of `j` when `j` is an object that has it. -/
def Json.lookup : Json → String → Option Json
  | .obj fields, key => lookupFields fields key
  | _, _ => none

/-- Python `d.get(k, default)` on a dict: the field if present, else the default.
Only used after establishing that the value is an object. -/
def Json.getD (j : Json) (key : String) (dflt : Json) : Json :=
  (j.lookup key).getD dflt

/-- Whether the value is a Python dict (`.get` on anything else raises
`AttributeError`). -/
def Json.isObj : Json → Bool
  | .obj _ => true
  | _ => false

/-- Python truthiness of a JSON value: `None`, `False`, `0`, `""`, `[]`
and the empty dict are falsy, everything else truthy. -/
def Json.truthy : Json → Bool
  | .null => false
  | .bool b => b
  | .num n => n != 0
  | .str s => s != ""
  | .arr elems => !elems.isEmpty
  | .obj fields => !fields.isEmpty

/-- Python `j == s` for a string literal `s`: equality holds only when `j`
is that string (`None == "x"` and `5 == "x"` are `False` in Python). -/
def jsonEqStr (j : Json) (s : String) : Bool :=
  match j with
  | .str t => t = s
  | _ => false

mutual
/-- Python `repr` of a JSON value (used by `str` on containers).
Python quotes strings with U+0027; containers render bracketed,
comma-separated items. -/
def pyRepr : Json → String
  | .null => "None"
  | .bool b => if b then "True" else "False"
  | .num n => toString n
  | .str s => "\x27" ++ s ++ "\x27"
  | .arr elems => "[" ++ pyReprList elems ++ "]"
  | .obj fields => "\x7b" ++ pyReprObj fields ++ "\x7d"

/-- Comma-separated `repr`s of list elements. -/
def pyReprList : List Json → String
  | [] => ""
  | [x] => pyRepr x
  | x :: y :: rest => pyRepr x ++ ", " ++ pyReprList (y :: rest)

/-- Comma-separated `repr`s of dict entries. -/
def pyReprObj : List (String × Json) → String
  | [] => ""
  | [(k, v)] => "\x27" ++ k ++ "\x27" ++ ": " ++ pyRepr v
  | (k, v) :: x :: rest =>
    "\x27" ++ k ++ "\x27" ++ ": " ++ pyRepr v ++ ", " ++ pyReprObj (x :: rest)
end

/-- Python `str()` as applied by an f-string: a string renders as itself,
anything else as its `repr`. -/
def pyStr : Json → String
  | .str s => s
  | j => pyRepr j

/-- Errors a call can raise.  `AuthenticationError`, `InvalidRequestError`
and `VideodbError` are the library's typed taxonomy.
Modelled from the spec: `videodb/exceptions.py` is not under src/; §3
"Typed Error" gives the variants AuthenticationError, InvalidRequestError
and a generic library error (VideodbError), each carrying a message.
`GenericException` is Python's builtin `Exception` (raised by the polling
retry decorator), `AttributeError` the builtin raised by `.get` on a
non-dict: both escape the library's taxonomy. -/
inductive VErr where
  | AuthenticationError (message : String) : VErr
  | InvalidRequestError (message : String) : VErr
  | VideodbError (message : String) : VErr
  | GenericException (message : String) : VErr
  | AttributeError : VErr
deriving Repr, DecidableEq

/-- Whether the error belongs to the library's typed taxonomy
(a subclass of the library's base error), as opposed to a builtin
Python exception. -/
def VErr.isTyped : VErr → Bool
  | .AuthenticationError _ => true
  | .InvalidRequestError _ => true
  | .VideodbError _ => true
  | .GenericException _ => false
  | .AttributeError => false

/-- The message carried by the error. -/
def VErr.message : VErr → String
  | .AuthenticationError m => m
  | .InvalidRequestError m => m
  | .VideodbError m => m
  | .GenericException m => m
  | .AttributeError => ""

/-- Status string constants.
Modelled from the spec: `videodb/_constants.py` (class `Status`) is not
under src/; §3 lists the status enum `{done, processing, in_progress, ...}`
and §6 makes a poll terminal when `status` is not in
`{in_progress, processing}`. -/
def Status.processing : String := "processing"

/-- See `Status.processing`. -/
def Status.in_progress : String := "in_progress"

/-- An HTTP response as the client sees it: final status code, raw body
text, and the parsed body (`none` models `response.json()` raising
`ValueError` on a non-JSON body). -/
structure Response where
  status_code : Nat
  text : String
  json : Option Json

/-- `HttpClient._handle_request_error`, HTTPError branch
(src/videodb/_utils/_http_client.py lines 88-101): extract
`e.response.json().get("message", "Unknown error")`, falling back to
`e.response.text` when the body is not JSON (`except ValueError`); then
raise `AuthenticationError` for status 401, `InvalidRequestError`
otherwise.  When the body parses as JSON but is not a dict (`[]`, a
string, a number, `null`), `.get` raises the builtin `AttributeError`,
which `except ValueError` does not catch: extraction aborts and the
builtin escapes before the 401 dispatch is reached. -/
def handle_request_error (r : Response) : VErr :=
  let error_message : Except VErr String :=
    match r.json with
    | some j =>
      if j.isObj then
        Except.ok (pyStr (j.getD "message" (Json.str "Unknown error")))
      else
        Except.error VErr.AttributeError
    | none => Except.ok r.text
  match error_message with
  | Except.error e => e
  | Except.ok msg =>
    if r.status_code = 401 then
      VErr.AuthenticationError ("Error: " ++ msg)
    else
      VErr.InvalidRequestError ("Invalid request: " ++ msg)

/-- The message-extraction precedence exactly as the spec sentence words
it, for the refinement comparison with `handle_request_error`: "the
response body's `message` field if present, else the raw body text, else
the generic string Unknown error". -/
def claimed_error_message (r : Response) : String :=
  match r.json with
  | some j =>
    match j.lookup "message" with
    | some m => pyStr m
    | none => if r.text = "" then "Unknown error" else r.text
  | none => if r.text = "" then "Unknown error" else r.text

/-- `requests.Response.raise_for_status` raises `HTTPError` exactly for
status codes 400-599 (4xx client errors and 5xx server errors);
3xx responses do not raise. -/
def raise_for_status (code : Nat) : Bool :=
  decide (400 ≤ code ∧ code < 600)

/-- One attempt of the body of `HttpClient._get_output`
(src/videodb/_utils/_http_client.py lines 123-133) on the parsed body
`rj` of a GET against the output url: raise the generic
`Exception("Stuck on processing status")` while `status` is
`in_progress` or `processing` (the exception only drives the
`backoff.on_exception` retry), raise `AttributeError` when the body is
not a dict, and otherwise terminate with
`response_json.get("response") or response_json`. -/
def pollAttempt (rj : Json) : Except VErr Json :=
  if rj.isObj then
    if jsonEqStr (rj.getD "status" Json.null) Status.in_progress
        || jsonEqStr (rj.getD "status" Json.null) Status.processing then
      Except.error (VErr.GenericException "Stuck on processing status")
    else
      Except.ok
        (if (rj.getD "response" Json.null).truthy
          then rj.getD "response" Json.null
          else rj)
  else
    Except.error VErr.AttributeError

/-- An attempt that does not terminate the loop: the body is not a dict,
or its `status` is still `in_progress`/`processing`. -/
def pollRetriable (rj : Json) : Bool :=
  !rj.isObj
    || (jsonEqStr (rj.getD "status" Json.null) Status.in_progress
        || jsonEqStr (rj.getD "status" Json.null) Status.processing)

/-- `HttpClient._get_output` under `@backoff.on_exception(..., max_time=500)`:
starting at poll index `i` with `fuel ≥ 1` attempts allowed by the time
ceiling, retry while attempts raise; when the budget runs out the last
raised exception is re-raised (backoff re-raises, it does not wrap).
Returns the result together with the number of GETs issued.
The `fuel = 0` case is unreachable from `parse_response` (backoff always
makes at least one attempt); it returns the generic exception. -/
def get_output (polls : Nat → Json) : Nat → Nat → Except VErr Json × Nat
  | _, 0 => (Except.error (VErr.GenericException "Stuck on processing status"), 0)
  | i, fuel + 1 =>
    match pollAttempt (polls i) with
    | Except.ok v => (Except.ok v, 1)
    | Except.error e =>
      match fuel with
      | 0 => (Except.error e, 1)
      | _ + 1 =>
        let rest := get_output polls (i + 1) fuel
        (rest.1, rest.2 + 1)

/-- `HttpClient._parse_response`
(src/videodb/_utils/_http_client.py lines 135-169), with the GET against
`data.output_url` abstracted by `polls`/`fuel` (see `get_output`).
Returns the Python return value (`Json.null` is Python `None`) or the
raised error, together with the number of poll GETs issued.
A non-JSON body (`r.json = none`) raises `ValueError` inside the `try`,
caught as `InvalidRequestError` over the raw text; `.get` on a non-dict
value raises `AttributeError`, which the `except ValueError` does not
catch. -/
def parse_response (r : Response) (polls : Nat → Json) (fuel : Nat) :
    Except VErr Json × Nat :=
  match r.json with
  | none =>
    (Except.error (VErr.InvalidRequestError ("Invalid request: " ++ r.text)), 0)
  | some rj =>
    if rj.isObj then
      if jsonEqStr (rj.getD "status" Json.null) Status.processing
          && jsonEqStr (rj.getD "request_type" (Json.str "sync")) "async" then
        (Except.ok Json.null, 0)
      else if jsonEqStr (rj.getD "status" Json.null) Status.processing
          && jsonEqStr (rj.getD "request_type" (Json.str "sync")) "sync" then
        -- response_json.get("data").get("output_url"): AttributeError
        -- unless data is a dict; the url value itself is abstracted away.
        if (rj.getD "data" Json.null).isObj then
          match get_output polls 0 fuel with
          | (Except.error e, c) => (Except.error e, c)
          | (Except.ok rj2, c) =>
            if rj2.isObj then
              if (rj2.getD "success" Json.null).truthy then
                (Except.ok (rj2.getD "data" Json.null), c)
              else
                (Except.error (VErr.InvalidRequestError
                  ("Invalid request: " ++ pyStr (rj2.getD "message" Json.null))), c)
            else
              (Except.error VErr.AttributeError, c)
        else
          (Except.error VErr.AttributeError, 0)
      else if (rj.getD "success" Json.null).truthy then
        (Except.ok (rj.getD "data" Json.null), 0)
      else
        (Except.error (VErr.InvalidRequestError
          ("Invalid request: " ++ pyStr (rj.getD "message" Json.null))), 0)
    else
      (Except.error VErr.AttributeError, 0)

/-- `HttpClient._make_request`
(src/videodb/_utils/_http_client.py lines 57-83): execute the call;
`raise_for_status` turns a 4xx/5xx into an `HTTPError`, which
`_handle_request_error` maps to a typed error; otherwise the body goes to
`_parse_response`. -/
def make_request (r : Response) (polls : Nat → Json) (fuel : Nat) :
    Except VErr Json × Nat :=
  if raise_for_status r.status_code then
    (Except.error (handle_request_error r), 0)
  else
    parse_response r polls fuel

/-- The keys of the Response Envelope wire shape (spec §6):
`success`, `status`, `request_type`, `message`, `data`. -/
def envelopeKeys : List String :=
  ["success", "status", "request_type", "message", "data"]

/-- The value is an envelope: a JSON object all of whose keys belong to
the envelope wire shape. -/
def isEnvelope : Json → Bool
  | .obj fields => fields.all (fun kv => envelopeKeys.contains kv.1)
  | _ => false

/-- Python truthiness of an optional-string argument (an omitted argument
defaults to `None`, and the empty string is also falsy). -/
def pyTruthyStr : Option String → Bool
  | none => false
  | some s => s != ""

/-- The argument-validation prefix of `upload`
(src/videodb/_upload.py lines 24-36): raise the generic library error
when neither or both of `file_path` and `url` are supplied.  `.ok ()`
means control proceeds to the request-issuing body (line 38 on); both
raises happen before any HTTP request is made. -/
def upload_validate_args (file_path url : Option String) : Except VErr Unit :=
  if !pyTruthyStr file_path && !pyTruthyStr url then
    Except.error (VErr.VideodbError "Either file_path or url is required")
  else if pyTruthyStr file_path && pyTruthyStr url then
    Except.error (VErr.VideodbError "Only one of file_path or url is allowed")
  else
    Except.ok ()

/-- The value a terminated poll loop hands back:
`response_json.get("response") or response_json`. -/
def unwrapPolled (rj : Json) : Json :=
  if (rj.getD "response" Json.null).truthy then rj.getD "response" Json.null else rj

theorem lookup_isObj {j : Json} {k : String} {v : Json}
    (h : j.lookup k = some v) : j.isObj = true := by
  cases j <;> simp [Json.lookup, Json.isObj] at h ⊢

theorem getD_of_lookup {j : Json} {k : String} {v d : Json}
    (h : j.lookup k = some v) : j.getD k d = v := by
  simp [Json.getD, h]

theorem pollAttempt_ok_of_not_retriable {rj : Json}
    (h : pollRetriable rj = false) : pollAttempt rj = Except.ok (unwrapPolled rj) := by
  simp only [pollRetriable, Bool.or_eq_false_iff] at h
  have hobj : rj.isObj = true := by simpa using h.1
  simp [pollAttempt, hobj, h.2.1, h.2.2, unwrapPolled]

theorem pollAttempt_error_of_retriable {rj : Json}
    (h : pollRetriable rj = true) : ∃ e, pollAttempt rj = Except.error e := by
  simp only [pollRetriable, Bool.or_eq_true] at h
  rcases h with h | h
  · exact ⟨VErr.AttributeError, by simp [pollAttempt, Bool.not_eq_true] at h ⊢; simp [h]⟩
  · refine ⟨VErr.GenericException "Stuck on processing status", ?_⟩
    have hobj : rj.isObj = true := by
      rcases h with h | h <;> cases rj <;>
        simp_all [jsonEqStr, Json.getD, Json.lookup, Json.isObj]
    simp [pollAttempt, hobj, h]

theorem get_output_ok {polls : Nat → Json} {i fuel : Nat} {v : Json}
    (he : pollAttempt (polls i) = Except.ok v) :
    get_output polls i (fuel + 1) = (Except.ok v, 1) := by
  conv_lhs => rw [get_output]
  rw [he]

theorem get_output_one_error {polls : Nat → Json} {i : Nat} {e : VErr}
    (he : pollAttempt (polls i) = Except.error e) :
    get_output polls i 1 = (Except.error e, 1) := by
  conv_lhs => rw [get_output]
  rw [he]

theorem get_output_step_error {polls : Nat → Json} {i f : Nat} {e : VErr}
    (he : pollAttempt (polls i) = Except.error e) :
    get_output polls i (f + 2) =
      ((get_output polls (i + 1) (f + 1)).1,
       (get_output polls (i + 1) (f + 1)).2 + 1) := by
  conv_lhs => rw [get_output]
  rw [he]

/-- While the attempt budget lasts, the loop returns the unwrapped first
terminal poll body, having issued exactly `k + 1` GETs when the first
terminal body is the `k`-th. -/
theorem get_output_first_terminal (polls : Nat → Json) :
    ∀ (k i fuel : Nat), k < fuel →
    (∀ j, j < k → pollRetriable (polls (i + j)) = true) →
    pollRetriable (polls (i + k)) = false →
    get_output polls i fuel = (Except.ok (unwrapPolled (polls (i + k))), k + 1) := by
  intro k
  induction k with
  | zero =>
    intro i fuel hk _ hterm
    obtain ⟨f, rfl⟩ : ∃ f, fuel = f + 1 := ⟨fuel - 1, by omega⟩
    simp only [Nat.add_zero] at hterm
    rw [get_output_ok (pollAttempt_ok_of_not_retriable hterm)]
    simp
  | succ k ih =>
    intro i fuel hk hpend hterm
    obtain ⟨f, rfl⟩ : ∃ f, fuel = f + 1 := ⟨fuel - 1, by omega⟩
    have hf : k < f := by omega
    obtain ⟨g, rfl⟩ : ∃ g, f = g + 1 := ⟨f - 1, by omega⟩
    have h0 : pollRetriable (polls (i + 0)) = true := hpend 0 (by omega)
    simp only [Nat.add_zero] at h0
    obtain ⟨e, he⟩ := pollAttempt_error_of_retriable h0
    have hrec := ih (i + 1) (g + 1) hf
      (fun j hj => by
        have := hpend (j + 1) (by omega)
        simpa [Nat.add_assoc, Nat.add_comm 1 j] using this)
      (by
        have heq : i + 1 + k = i + (k + 1) := by omega
        rw [heq]; exact hterm)
    have heq : i + 1 + k = i + (k + 1) := by omega
    rw [heq] at hrec
    rw [get_output_step_error he, hrec]

/-- When every poll body is a dict still reporting a pending status, the
loop exhausts its budget and the last raised generic exception surfaces,
having issued `fuel` GETs. -/
theorem get_output_stuck (polls : Nat → Json)
    (hall : ∀ n, (polls n).isObj = true ∧
      (jsonEqStr ((polls n).getD "status" Json.null) Status.in_progress = true ∨
       jsonEqStr ((polls n).getD "status" Json.null) Status.processing = true)) :
    ∀ (fuel i : Nat), 1 ≤ fuel →
    get_output polls i fuel =
      (Except.error (VErr.GenericException "Stuck on processing status"), fuel) := by
  intro fuel
  induction fuel with
  | zero => intro i h; omega
  | succ f ih =>
    intro i _
    have hobj := (hall i).1
    have hpend := (hall i).2
    have hatt : pollAttempt (polls i) =
        Except.error (VErr.GenericException "Stuck on processing status") := by
      rcases hpend with h | h <;> simp [pollAttempt, hobj, h]
    cases f with
    | zero => rw [get_output_one_error hatt]
    | succ g => rw [get_output_step_error hatt, ih (i + 1) (by omega)]

theorem jsonEqStr_eq_true_iff {j : Json} {s : String} :
    jsonEqStr j s = true ↔ j = Json.str s := by
  cases j <;> simp [jsonEqStr]

theorem jsonEqStr_eq_false_of_ne {j : Json} {s : String}
    (h : j ≠ Json.str s) : jsonEqStr j s = false := by
  rw [Bool.eq_false_iff]
  simp only [ne_eq, jsonEqStr_eq_true_iff]
  exact h

theorem lookupFields_response_none (fields : List (String × Json))
    (h : ∀ kv ∈ fields, envelopeKeys.contains kv.1 = true) :
    lookupFields fields "response" = none := by
  induction fields with
  | nil => rfl
  | cons kv rest ih =>
    obtain ⟨k, v⟩ := kv
    have hk := h (k, v) (List.mem_cons_self _ _)
    have hne : k ≠ "response" := by
      simp [envelopeKeys] at hk
      rcases hk with rfl | rfl | rfl | rfl | rfl <;> decide
    simp only [lookupFields, hne, if_false, if_neg hne]
    exact ih (fun kv hkv => h kv (List.mem_cons_of_mem _ hkv))

theorem isEnvelope_lookup_response {j : Json} (h : isEnvelope j = true) :
    j.lookup "response" = none := by
  cases j <;> simp [isEnvelope] at h ⊢
  case obj fields =>
    exact lookupFields_response_none fields (by simpa using h)

theorem isEnvelope_isObj {j : Json} (h : isEnvelope j = true) :
    j.isObj = true := by
  cases j <;> simp_all [isEnvelope, Json.isObj]

/-- A terminal body that is an envelope (no extra `response` key) is
handed back unchanged by the loop. -/
theorem unwrapPolled_of_envelope {j : Json} (h : isEnvelope j = true) :
    unwrapPolled j = j := by
  simp [unwrapPolled, Json.getD, isEnvelope_lookup_response h, Json.truthy]

/-- The async-processing branch of `_parse_response`: `return None`,
no poll GET issued. -/
theorem parse_response_async_null {r : Response} {rj : Json}
    (polls : Nat → Json) (fuel : Nat)
    (hjson : r.json = some rj)
    (hst : rj.lookup "status" = some (Json.str Status.processing))
    (hrt : rj.getD "request_type" (Json.str "sync") = Json.str "async") :
    parse_response r polls fuel = (Except.ok Json.null, 0) := by
  have hobj := lookup_isObj hst
  simp [parse_response, hjson, hobj, getD_of_lookup hst, hrt, jsonEqStr,
    Status.processing]

/-- The fall-through of `_parse_response` when `status` is not
`processing`: the `success`/`data`/`message` check on the body itself,
no poll GET issued. -/
theorem parse_response_not_processing {r : Response} {rj : Json}
    (polls : Nat → Json) (fuel : Nat)
    (hjson : r.json = some rj)
    (hobj : rj.isObj = true)
    (hst : rj.getD "status" Json.null ≠ Json.str Status.processing) :
    parse_response r polls fuel =
      (if (rj.getD "success" Json.null).truthy then
        (Except.ok (rj.getD "data" Json.null), 0)
      else
        (Except.error (VErr.InvalidRequestError
          ("Invalid request: " ++ pyStr (rj.getD "message" Json.null))), 0)) := by
  simp [parse_response, hjson, hobj, jsonEqStr_eq_false_of_ne hst]

/-- The sync-processing branch of `_parse_response`: delegate to
`get_output` and run the success check on what it hands back. -/
theorem parse_response_sync_branch {r : Response} {rj d : Json}
    (polls : Nat → Json) (fuel : Nat)
    (hjson : r.json = some rj)
    (hst : rj.lookup "status" = some (Json.str Status.processing))
    (hrt : rj.getD "request_type" (Json.str "sync") = Json.str "sync")
    (hd : rj.lookup "data" = some d)
    (hdo : d.isObj = true) :
    parse_response r polls fuel =
      (match get_output polls 0 fuel with
      | (Except.error e, c) => (Except.error e, c)
      | (Except.ok rj2, c) =>
        if rj2.isObj then
          if (rj2.getD "success" Json.null).truthy then
            (Except.ok (rj2.getD "data" Json.null), c)
          else
            (Except.error (VErr.InvalidRequestError
              ("Invalid request: " ++ pyStr (rj2.getD "message" Json.null))), c)
        else (Except.error VErr.AttributeError, c)) := by
  have hobj := lookup_isObj hst
  simp [parse_response, hjson, hobj, getD_of_lookup hst, hrt,
    getD_of_lookup hd, hdo, jsonEqStr, Status.processing]

/-- C1: for every response envelope with `status=processing` and
`request_type=sync` (present or defaulted) carrying `data.output_url=U`,
the client repeatedly GETs `U` until the reported status is neither
`in_progress` nor `processing` — issuing exactly `k + 1` GETs when the
first terminal body is the `k`-th and the budget allows it — and then
returns the `data` field of the terminal envelope whenever that
envelope's `success` is true. -/
theorem C1_sync_polls_until_terminal_and_returns_data
    {r : Response} {rj d dT : Json} {u : String}
    (polls : Nat → Json) {k fuel : Nat}
    (hjson : r.json = some rj)
    (hst : rj.lookup "status" = some (Json.str Status.processing))
    (hrt : rj.getD "request_type" (Json.str "sync") = Json.str "sync")
    (hd : rj.lookup "data" = some d)
    (hurl : d.lookup "output_url" = some (Json.str u))
    (hk : k < fuel)
    (hpend : ∀ j, j < k → pollRetriable (polls j) = true)
    (hterm : pollRetriable (polls k) = false)
    (henv : isEnvelope (polls k) = true)
    (hsucc : (polls k).lookup "success" = some (Json.bool true))
    (hdata : (polls k).lookup "data" = some dT) :
    parse_response r polls fuel = (Except.ok dT, k + 1) := by
  have hdo : d.isObj = true := lookup_isObj hurl
  rw [parse_response_sync_branch polls fuel hjson hst hrt hd hdo]
  have hgo := get_output_first_terminal polls k 0 fuel hk
    (fun j hj => by simpa using hpend j hj)
    (by simpa using hterm)
  simp only [Nat.zero_add] at hgo
  rw [hgo]
  simp [unwrapPolled_of_envelope henv, isEnvelope_isObj henv,
    getD_of_lookup hsucc, getD_of_lookup hdata, Json.truthy]

/-- Witness for C1: one pending poll, then a terminal successful
envelope; two GETs issued, its `data` returned. -/
theorem C1_sync_polls_witness :
    parse_response
      ⟨200, "",
        some (Json.obj [("status", Json.str "processing"),
          ("data", Json.obj [("output_url", Json.str "u")])])⟩
      (fun i => if i = 0 then Json.obj [("status", Json.str "processing")]
        else Json.obj [("status", Json.str "done"),
          ("success", Json.bool true), ("data", Json.num 42)])
      3
    = (Except.ok (Json.num 42), 1 + 1) :=
  C1_sync_polls_until_terminal_and_returns_data
    (fun i => if i = 0 then Json.obj [("status", Json.str "processing")]
      else Json.obj [("status", Json.str "done"),
        ("success", Json.bool true), ("data", Json.num 42)])
    rfl rfl rfl rfl rfl (by omega)
    (fun j hj => by
      have hj0 : j = 0 := by omega
      subst hj0; rfl)
    rfl rfl rfl rfl

/-- C5: for every response envelope with `status=processing` and
`request_type=async`, the call returns `None` immediately and issues no
follow-up (polling) request. -/
theorem C5_async_processing_returns_null_no_poll
    {r : Response} {rj : Json} (polls : Nat → Json) (fuel : Nat)
    (hjson : r.json = some rj)
    (hst : rj.lookup "status" = some (Json.str Status.processing))
    (hrt : rj.lookup "request_type" = some (Json.str "async")) :
    parse_response r polls fuel = (Except.ok Json.null, 0) :=
  parse_response_async_null polls fuel hjson hst (getD_of_lookup hrt)

/-- Witness for C5 at a concrete async-processing envelope. -/
theorem C5_async_witness :
    parse_response
      ⟨200, "", some (Json.obj [("status", Json.str "processing"),
        ("request_type", Json.str "async")])⟩
      (fun _ => Json.null) 5
    = (Except.ok Json.null, 0) :=
  C5_async_processing_returns_null_no_poll (fun _ => Json.null) 5 rfl rfl rfl

/-- C6: whenever the polling loop reaches a terminal envelope whose
`success` is falsy, the client raises `InvalidRequestError` whose
message contains that terminal envelope's `message` field verbatim. -/
theorem C6_polled_failure_raises_invalid_request
    {r : Response} {rj d : Json} {u m : String}
    (polls : Nat → Json) {k fuel : Nat}
    (hjson : r.json = some rj)
    (hst : rj.lookup "status" = some (Json.str Status.processing))
    (hrt : rj.getD "request_type" (Json.str "sync") = Json.str "sync")
    (hd : rj.lookup "data" = some d)
    (hurl : d.lookup "output_url" = some (Json.str u))
    (hk : k < fuel)
    (hpend : ∀ j, j < k → pollRetriable (polls j) = true)
    (hterm : pollRetriable (polls k) = false)
    (henv : isEnvelope (polls k) = true)
    (hsucc : ((polls k).getD "success" Json.null).truthy = false)
    (hmsg : (polls k).lookup "message" = some (Json.str m)) :
    parse_response r polls fuel =
      (Except.error (VErr.InvalidRequestError ("Invalid request: " ++ m)),
       k + 1) := by
  have hdo : d.isObj = true := lookup_isObj hurl
  rw [parse_response_sync_branch polls fuel hjson hst hrt hd hdo]
  have hgo := get_output_first_terminal polls k 0 fuel hk
    (fun j hj => by simpa using hpend j hj)
    (by simpa using hterm)
  simp only [Nat.zero_add] at hgo
  rw [hgo]
  simp [unwrapPolled_of_envelope henv, isEnvelope_isObj henv, hsucc,
    getD_of_lookup hmsg, pyStr]

/-- Witness for C6: the first poll is already terminal with
`success=false` and `message="boom"`. -/
theorem C6_polled_failure_witness :
    parse_response
      ⟨200, "",
        some (Json.obj [("status", Json.str "processing"),
          ("data", Json.obj [("output_url", Json.str "u")])])⟩
      (fun _ => Json.obj [("status", Json.str "error"),
        ("success", Json.bool false), ("message", Json.str "boom")])
      1
    = (Except.error (VErr.InvalidRequestError "Invalid request: boom"),
       0 + 1) :=
  C6_polled_failure_raises_invalid_request
    (fun _ => Json.obj [("status", Json.str "error"),
      ("success", Json.bool false), ("message", Json.str "boom")])
    rfl rfl rfl rfl rfl (by omega)
    (fun j hj => absurd hj (Nat.not_lt_zero j))
    rfl rfl rfl rfl

/-- C7: a directly-successful envelope (`success=true`, `status` not
`processing`) returns its `data` value unchanged, with no poll GET
issued. -/
theorem C7_direct_success_returns_data_no_poll
    {r : Response} {rj d : Json} (polls : Nat → Json) (fuel : Nat)
    (hjson : r.json = some rj)
    (hst : rj.getD "status" Json.null ≠ Json.str Status.processing)
    (hsucc : rj.lookup "success" = some (Json.bool true))
    (hd : rj.lookup "data" = some d) :
    parse_response r polls fuel = (Except.ok d, 0) := by
  rw [parse_response_not_processing polls fuel hjson (lookup_isObj hsucc) hst]
  simp [getD_of_lookup hsucc, getD_of_lookup hd, Json.truthy]

/-- Witness for C7 at a concrete successful envelope with a structured
payload. -/
theorem C7_direct_success_witness :
    parse_response
      ⟨200, "", some (Json.obj [("success", Json.bool true),
        ("status", Json.str "done"),
        ("data", Json.obj [("id", Json.num 1)])])⟩
      (fun _ => Json.null) 4
    = (Except.ok (Json.obj [("id", Json.num 1)]), 0) :=
  C7_direct_success_returns_data_no_poll (fun _ => Json.null) 4 rfl
    (by simp [Json.getD, Json.lookup, lookupFields, Status.processing]) rfl rfl

/-- C2 counterexample: HTTP 303 is a non-2xx status, yet the call
returns the payload instead of raising — `raise_for_status` only raises
for 4xx/5xx, so a 3xx final response flows into the envelope
interpreter. -/
theorem C2_counterexample_303_returns_value :
    make_request ⟨303, "",
      some (Json.obj [("success", Json.bool true), ("data", Json.num 7)])⟩
      (fun _ => Json.null) 1
    = (Except.ok (Json.num 7), 0)
    ∧ ¬(200 ≤ 303 ∧ 303 < 300) :=
  ⟨rfl, by omega⟩

/-- C2 amended: for every HTTP response with a 4xx/5xx status code, the
call raises and never returns a value.  When the body is non-JSON text
or a JSON dict (the only shapes whose message extraction completes), the
raised error is `AuthenticationError` for 401 and `InvalidRequestError`
for any other such code; when the body parses as non-dict JSON, the
builtin `AttributeError` from `.get` escapes instead of a typed error.
Non-2xx codes outside 400-599 (3xx) do not raise. -/
theorem C2_amended_4xx_5xx_raise_typed
    (r : Response) (polls : Nat → Json) (fuel : Nat)
    (h4 : 400 ≤ r.status_code) (h6 : r.status_code < 600) :
    ((r.json = none ∨ (∃ j, r.json = some j ∧ j.isObj = true)) →
      ∃ e, make_request r polls fuel = (Except.error e, 0) ∧
        (if r.status_code = 401 then ∃ m, e = VErr.AuthenticationError m
         else ∃ m, e = VErr.InvalidRequestError m)) ∧
    (∀ j, r.json = some j → j.isObj = false →
      make_request r polls fuel = (Except.error VErr.AttributeError, 0)) := by
  have hr : raise_for_status r.status_code = true := by
    simp only [raise_for_status, decide_eq_true_eq]
    exact ⟨h4, h6⟩
  constructor
  · intro hbody
    refine ⟨handle_request_error r, ?_, ?_⟩
    · simp [make_request, hr]
    · rcases hbody with hnone | ⟨j, hj, hobj⟩
      · by_cases h401 : r.status_code = 401 <;>
          simp [handle_request_error, hnone, h401]
      · by_cases h401 : r.status_code = 401 <;>
          simp [handle_request_error, hj, hobj, h401]
  · intro j hj hobj
    simp [make_request, hr, handle_request_error, hj, hobj]

/-- Witness for C2 (amended): a 401 with a JSON dict body raises
`AuthenticationError`; a 404 whose body is the non-dict JSON `[]`
surfaces the builtin `AttributeError`. -/
theorem C2_amended_witness :
    (∃ e, make_request
        ⟨401, "", some (Json.obj [("message", Json.str "bad key")])⟩
        (fun _ => Json.null) 1
      = (Except.error e, 0) ∧
      (if (401 : Nat) = 401 then ∃ m, e = VErr.AuthenticationError m
       else ∃ m, e = VErr.InvalidRequestError m)) ∧
    make_request ⟨404, "[]", some (Json.arr [])⟩ (fun _ => Json.null) 1
      = (Except.error VErr.AttributeError, 0) :=
  ⟨(C2_amended_4xx_5xx_raise_typed
      ⟨401, "", some (Json.obj [("message", Json.str "bad key")])⟩
      (fun _ => Json.null) 1 (by decide) (by decide)).1
      (Or.inr ⟨Json.obj [("message", Json.str "bad key")], rfl, rfl⟩),
   (C2_amended_4xx_5xx_raise_typed
      ⟨404, "[]", some (Json.arr [])⟩
      (fun _ => Json.null) 1 (by decide) (by decide)).2
      (Json.arr []) rfl rfl⟩

/-- C3 counterexample: when every poll still reports `processing`, the
error that surfaces after the backoff budget is Python's untyped generic
`Exception("Stuck on processing status")`, not a typed (library
taxonomy) error — the spec itself flags this as a known gap. -/
theorem C3_counterexample_untyped_timeout :
    parse_response
      ⟨200, "", some (Json.obj [("status", Json.str "processing"),
        ("data", Json.obj [("output_url", Json.str "u")])])⟩
      (fun _ => Json.obj [("status", Json.str "processing")]) 3
    = (Except.error (VErr.GenericException "Stuck on processing status"), 3)
    ∧ (VErr.GenericException "Stuck on processing status").isTyped = false :=
  ⟨rfl, rfl⟩

/-- C3 amended: if the polling loop never observes a terminal status
before the ceiling, the call does raise — it never silently returns a
value — but what it raises is the generic untyped
`Exception("Stuck on processing status")` re-raised by the backoff
decorator, so this failure path does not end in a typed error. -/
theorem C3_amended_timeout_raises_generic
    {r : Response} {rj d : Json} (polls : Nat → Json) {fuel : Nat}
    (hjson : r.json = some rj)
    (hst : rj.lookup "status" = some (Json.str Status.processing))
    (hrt : rj.getD "request_type" (Json.str "sync") = Json.str "sync")
    (hd : rj.lookup "data" = some d)
    (hdo : d.isObj = true)
    (hfuel : 1 ≤ fuel)
    (hall : ∀ n, (polls n).isObj = true ∧
      (jsonEqStr ((polls n).getD "status" Json.null) Status.in_progress = true ∨
       jsonEqStr ((polls n).getD "status" Json.null) Status.processing = true)) :
    parse_response r polls fuel =
      (Except.error (VErr.GenericException "Stuck on processing status"), fuel)
    ∧ (VErr.GenericException "Stuck on processing status").isTyped = false := by
  constructor
  · rw [parse_response_sync_branch polls fuel hjson hst hrt hd hdo]
    rw [get_output_stuck polls hall fuel 0 hfuel]
  · rfl

/-- Witness for C3 (amended) at a concrete always-processing poll
sequence. -/
theorem C3_amended_witness :
    parse_response
      ⟨200, "", some (Json.obj [("status", Json.str "processing"),
        ("data", Json.obj [("output_url", Json.str "u")])])⟩
      (fun _ => Json.obj [("status", Json.str "in_progress")]) 2
    = (Except.error (VErr.GenericException "Stuck on processing status"), 2)
    ∧ (VErr.GenericException "Stuck on processing status").isTyped = false :=
  C3_amended_timeout_raises_generic
    (fun _ => Json.obj [("status", Json.str "in_progress")])
    rfl rfl rfl rfl rfl (by omega)
    (fun n => ⟨rfl, Or.inl rfl⟩)

/-- C4 counterexample: a 404 whose body is the JSON text for the empty
object (so it parses, but has no `message` field).  The claim's stated
precedence falls back to the raw body text; the code instead uses
"Unknown error", so the raised message is not the one the claimed
precedence extracts. -/
theorem C4_counterexample_empty_object_body :
    handle_request_error ⟨404, "\x7b\x7d", some (Json.obj [])⟩
      = VErr.InvalidRequestError "Invalid request: Unknown error"
    ∧ claimed_error_message ⟨404, "\x7b\x7d", some (Json.obj [])⟩ = "\x7b\x7d"
    ∧ VErr.InvalidRequestError
        ("Invalid request: "
          ++ claimed_error_message ⟨404, "\x7b\x7d", some (Json.obj [])⟩)
      ≠ VErr.InvalidRequestError "Invalid request: Unknown error" :=
  ⟨rfl, rfl, by decide⟩

/-- C4 amended: for every 4xx/5xx response, the raised message uses the
body's `message` field when the body is a JSON dict that has one, the
constant "Unknown error" when the JSON dict has none, and the raw body
text when the body is not JSON; when the body parses as non-dict JSON,
no typed error is built at all — the builtin `AttributeError` escapes.
In particular a string `message` appears in the raised message
verbatim. -/
theorem C4_amended_message_extraction
    (r : Response) (_h4 : 400 ≤ r.status_code) (_h6 : r.status_code < 600) :
    (∀ j m, r.json = some j → j.lookup "message" = some (Json.str m) →
      ∃ pre, (handle_request_error r).message = pre ++ m) ∧
    (∀ j, r.json = some j → j.isObj = true → j.lookup "message" = none →
      ∃ pre, (handle_request_error r).message = pre ++ "Unknown error") ∧
    (r.json = none →
      ∃ pre, (handle_request_error r).message = pre ++ r.text) ∧
    (∀ j, r.json = some j → j.isObj = false →
      handle_request_error r = VErr.AttributeError) := by
  refine ⟨?_, ?_, ?_, ?_⟩
  · intro j m hj hm
    have hobj : j.isObj = true := lookup_isObj hm
    have hget : j.getD "message" (Json.str "Unknown error") = Json.str m :=
      getD_of_lookup hm
    by_cases h401 : r.status_code = 401
    · exact ⟨"Error: ",
        by simp [handle_request_error, hj, hobj, hget, h401, VErr.message, pyStr]⟩
    · exact ⟨"Invalid request: ",
        by simp [handle_request_error, hj, hobj, hget, h401, VErr.message, pyStr]⟩
  · intro j hj hobj hm
    have hget : j.getD "message" (Json.str "Unknown error")
        = Json.str "Unknown error" := by
      simp [Json.getD, hm]
    by_cases h401 : r.status_code = 401
    · exact ⟨"Error: ",
        by simp [handle_request_error, hj, hobj, hget, h401, VErr.message, pyStr]⟩
    · exact ⟨"Invalid request: ",
        by simp [handle_request_error, hj, hobj, hget, h401, VErr.message, pyStr]⟩
  · intro hj
    by_cases h401 : r.status_code = 401
    · exact ⟨"Error: ",
        by simp [handle_request_error, hj, h401, VErr.message]⟩
    · exact ⟨"Invalid request: ",
        by simp [handle_request_error, hj, h401, VErr.message]⟩
  · intro j hj hobj
    simp [handle_request_error, hj, hobj]

/-- Witness for C4 (amended) at a concrete 404 with a string `message`
in its JSON dict body. -/
theorem C4_amended_witness :
    (∀ j m, (Response.mk 404 "x" (some (Json.obj [("message", Json.str "nope")]))).json = some j →
      j.lookup "message" = some (Json.str m) →
      ∃ pre, (handle_request_error
        (Response.mk 404 "x" (some (Json.obj [("message", Json.str "nope")])))).message = pre ++ m) ∧
    (∀ j, (Response.mk 404 "x" (some (Json.obj [("message", Json.str "nope")]))).json = some j →
      j.isObj = true → j.lookup "message" = none →
      ∃ pre, (handle_request_error
        (Response.mk 404 "x" (some (Json.obj [("message", Json.str "nope")])))).message = pre ++ "Unknown error") ∧
    ((Response.mk 404 "x" (some (Json.obj [("message", Json.str "nope")]))).json = none →
      ∃ pre, (handle_request_error
        (Response.mk 404 "x" (some (Json.obj [("message", Json.str "nope")])))).message
        = pre ++ (Response.mk 404 "x" (some (Json.obj [("message", Json.str "nope")]))).text) ∧
    (∀ j, (Response.mk 404 "x" (some (Json.obj [("message", Json.str "nope")]))).json = some j →
      j.isObj = false →
      handle_request_error
        (Response.mk 404 "x" (some (Json.obj [("message", Json.str "nope")])))
        = VErr.AttributeError) :=
  C4_amended_message_extraction
    (Response.mk 404 "x" (some (Json.obj [("message", Json.str "nope")])))
    (by decide) (by decide)

/-- C8: `upload` raises the generic library error (`VideodbError`) when
the caller supplies neither of the mutually exclusive `file_path`/`url`
inputs, and also when it supplies both; both raises happen in the
validation prefix, before any request is issued. -/
theorem C8_upload_requires_exactly_one_source
    (file_path url : Option String) :
    (pyTruthyStr file_path = false → pyTruthyStr url = false →
      upload_validate_args file_path url =
        Except.error (VErr.VideodbError "Either file_path or url is required")) ∧
    (pyTruthyStr file_path = true → pyTruthyStr url = true →
      upload_validate_args file_path url =
        Except.error (VErr.VideodbError "Only one of file_path or url is allowed")) := by
  constructor
  · intro h1 h2
    simp [upload_validate_args, h1, h2]
  · intro h1 h2
    simp [upload_validate_args, h1, h2]

/-- Witness for C8: both arguments omitted, and both supplied. -/
theorem C8_upload_witness :
    upload_validate_args none none =
      Except.error (VErr.VideodbError "Either file_path or url is required")
    ∧ upload_validate_args (some "a.mp4") (some "https://x") =
      Except.error (VErr.VideodbError "Only one of file_path or url is allowed") :=
  ⟨(C8_upload_requires_exactly_one_source none none).1 rfl rfl,
   (C8_upload_requires_exactly_one_source (some "a.mp4") (some "https://x")).2
     rfl rfl⟩

/-- C9: a successful envelope (`success=true`, `status` not
`processing`) whose `data` field is absent returns `None` with no poll
GET — literally the same result as the async fire-and-forget
acknowledgment, so the caller cannot tell the two apart. -/
theorem C9_absent_data_equals_async_ack
    {r : Response} {rj : Json} (polls : Nat → Json) (fuel : Nat)
    (hjson : r.json = some rj)
    (hst : rj.getD "status" Json.null ≠ Json.str Status.processing)
    (hsucc : rj.lookup "success" = some (Json.bool true))
    (hnodata : rj.lookup "data" = none) :
    parse_response r polls fuel = (Except.ok Json.null, 0) ∧
    ∀ (r2 : Response) (rj2 : Json), r2.json = some rj2 →
      rj2.lookup "status" = some (Json.str Status.processing) →
      rj2.lookup "request_type" = some (Json.str "async") →
      parse_response r2 polls fuel = parse_response r polls fuel := by
  have h1 : parse_response r polls fuel = (Except.ok Json.null, 0) := by
    rw [parse_response_not_processing polls fuel hjson (lookup_isObj hsucc) hst]
    simp [Json.getD, hsucc, hnodata, Json.truthy]
  refine ⟨h1, ?_⟩
  intro r2 rj2 hj2 hst2 hrt2
  rw [h1, parse_response_async_null polls fuel hj2 hst2 (getD_of_lookup hrt2)]

/-- Witness for C9: a payload-less success and an async acknowledgment
produce the same value. -/
theorem C9_absent_data_witness :
    parse_response
      ⟨200, "", some (Json.obj [("success", Json.bool true),
        ("status", Json.str "done")])⟩
      (fun _ => Json.null) 2
    = (Except.ok Json.null, 0)
    ∧ parse_response
        ⟨200, "", some (Json.obj [("status", Json.str "processing"),
          ("request_type", Json.str "async")])⟩
        (fun _ => Json.null) 2
      = parse_response
          ⟨200, "", some (Json.obj [("success", Json.bool true),
            ("status", Json.str "done")])⟩
          (fun _ => Json.null) 2 :=
  ⟨(@C9_absent_data_equals_async_ack
      ⟨200, "", some (Json.obj [("success", Json.bool true),
        ("status", Json.str "done")])⟩
      (Json.obj [("success", Json.bool true), ("status", Json.str "done")])
      (fun _ => Json.null) 2 rfl
      (by simp [Json.getD, Json.lookup, lookupFields, Status.processing])
      rfl rfl).1,
   (@C9_absent_data_equals_async_ack
      ⟨200, "", some (Json.obj [("success", Json.bool true),
        ("status", Json.str "done")])⟩
      (Json.obj [("success", Json.bool true), ("status", Json.str "done")])
      (fun _ => Json.null) 2 rfl
      (by simp [Json.getD, Json.lookup, lookupFields, Status.processing])
      rfl rfl).2
     ⟨200, "", some (Json.obj [("status", Json.str "processing"),
       ("request_type", Json.str "async")])⟩
     (Json.obj [("status", Json.str "processing"),
       ("request_type", Json.str "async")])
     rfl rfl rfl⟩

/-- C10: with `status=processing` and a `request_type` present but equal
to neither "sync" nor "async", the interpreter neither takes the async
`None` return nor enters the polling protocol (no poll GET is issued):
it falls through to the success check, returning `data` when `success`
is truthy and raising `InvalidRequestError` with the envelope's
`message` otherwise. -/
theorem C10_unknown_request_type_falls_through
    {r : Response} {rj v : Json} (polls : Nat → Json) (fuel : Nat)
    (hjson : r.json = some rj)
    (hst : rj.lookup "status" = some (Json.str Status.processing))
    (hrt : rj.lookup "request_type" = some v)
    (hv1 : v ≠ Json.str "sync") (hv2 : v ≠ Json.str "async") :
    parse_response r polls fuel =
      (if (rj.getD "success" Json.null).truthy then
        (Except.ok (rj.getD "data" Json.null), 0)
      else
        (Except.error (VErr.InvalidRequestError
          ("Invalid request: " ++ pyStr (rj.getD "message" Json.null))), 0)) := by
  have hobj := lookup_isObj hst
  have hrt' : rj.getD "request_type" (Json.str "sync") = v := getD_of_lookup hrt
  have hp : jsonEqStr (Json.str Status.processing) Status.processing = true := by
    simp [jsonEqStr]
  simp [parse_response, hjson, hobj, getD_of_lookup hst, hrt', hp,
    jsonEqStr_eq_false_of_ne hv1, jsonEqStr_eq_false_of_ne hv2]

/-- Witness for C10: `request_type="batch"` with a successful envelope
falls through and returns `data`. -/
theorem C10_unknown_request_type_witness :
    parse_response
      ⟨200, "", some (Json.obj [("status", Json.str "processing"),
        ("request_type", Json.str "batch"),
        ("success", Json.bool true), ("data", Json.num 9)])⟩
      (fun _ => Json.null) 3
    = (if ((Json.obj [("status", Json.str "processing"),
          ("request_type", Json.str "batch"),
          ("success", Json.bool true),
          ("data", Json.num 9)]).getD "success" Json.null).truthy then
        (Except.ok ((Json.obj [("status", Json.str "processing"),
          ("request_type", Json.str "batch"),
          ("success", Json.bool true),
          ("data", Json.num 9)]).getD "data" Json.null), 0)
      else
        (Except.error (VErr.InvalidRequestError
          ("Invalid request: "
            ++ pyStr ((Json.obj [("status", Json.str "processing"),
              ("request_type", Json.str "batch"),
              ("success", Json.bool true),
              ("data", Json.num 9)]).getD "message" Json.null))), 0)) :=
  C10_unknown_request_type_falls_through (fun _ => Json.null) 3
    rfl rfl rfl (by simp) (by simp)
